import Mathlib

/-!
Shallow embedding of the dollarWize financial-literacy core
(`src/dollarWize.ts`) together with proofs about its operations.

Modelling conventions:
* TypeScript string-literal union types (`FinancialLiteracyLevel`,
  `FinancialCategory`) become inductive enums.
* JS numbers that only ever hold integers (`correct`, `difficulty_weight`,
  counters) become `Nat`/`Int`; numbers produced by division
  (`overall_accuracy`, `category_mastery` values) become `ℚ`.
* `Date` values become `Int` millisecond timestamps; every operation that
  calls `new Date()` takes the current time as an explicit `now` argument.
* A JS `Record` with all 12 category keys present (dense) becomes a function
  `FinancialCategory → _`; a `Record` used as a partial map with insertion
  order (sparse) becomes an association list `List (FinancialCategory × _)`
  whose update works in place on an existing key and otherwise appends,
  exactly like JS property assignment.
* `array[i]` reads that can be out of bounds become `l[i]?` (`undefined`
  never equals a number, so `l[i]? = some v` models `array[i] === v`).
* `Math.floor(Math.random() * (i + 1))` in the Fisher–Yates shuffle becomes
  `r i % (i + 1)` for an arbitrary oracle `r : Nat → Nat`: this produces
  exactly the values `0 … i` the source can produce.
-/

namespace DollarWize

/-- Embeds the string-literal union `FinancialLiteracyLevel` of
`src/dollarWize.ts` line 23. -/
inductive FinancialLiteracyLevel where
  | novice
  | intermediate
  | advanced
deriving DecidableEq, Repr

/-- Embeds the string-literal union `FinancialCategory` of
`src/dollarWize.ts` lines 29-41, in source order. -/
inductive FinancialCategory where
  | savings
  | retirement
  | investing
  | credit
  | planning
  | economics
  | taxation
  | real_estate
  | education
  | insurance
  | budgeting
  | debt_management
deriving DecidableEq, Repr

open FinancialLiteracyLevel FinancialCategory

/-- The 12 categories in the declaration order of the union type, which is
also the key order of the dense `categoryScores` record literal built by
`assessUser` (lines 744-757) and hence the `Object.entries` iteration
order. -/
def allCategories : List FinancialCategory :=
  [savings, retirement, investing, credit, planning, economics, taxation,
   real_estate, education, insurance, budgeting, debt_management]

/-- The string value of each category in the source union (used by
`improvementAreas.join` in the recommendation text, line 804). -/
def categoryName : FinancialCategory → String
  | savings => "savings"
  | retirement => "retirement"
  | investing => "investing"
  | credit => "credit"
  | planning => "planning"
  | economics => "economics"
  | taxation => "taxation"
  | real_estate => "real_estate"
  | education => "education"
  | insurance => "insurance"
  | budgeting => "budgeting"
  | debt_management => "debt_management"

/-- Embeds interface `QuizQuestion`, `src/dollarWize.ts` lines 47-57. -/
structure QuizQuestion where
  id : String
  question : String
  options : List String
  correct : Int
  level : FinancialLiteracyLevel
  category : FinancialCategory
  explanation : String
  difficulty_weight : Nat
  us_specific : Bool
deriving DecidableEq, Repr

/-- Embeds interface `GlossaryTerm`, `src/dollarWize.ts` lines 63-72.
The interface declares `related_terms: string[]` as required, but several
object literals in the data (lines 533-546, 569-582, 604-617) omit the
field; at runtime the property then reads as `undefined`. The field is
therefore embedded as an `Option`, `none` standing for the omitted
property. -/
structure GlossaryTerm where
  id : String
  term : String
  definition : String
  level : FinancialLiteracyLevel
  category : FinancialCategory
  related_terms : Option (List String)
  us_context : Option String
  examples : Option (List String)
deriving DecidableEq, Repr

/-- Embeds interface `AssessmentResult`, `src/dollarWize.ts` lines 78-86.
`category_scores` is a dense record with all 12 keys and becomes a
function. -/
structure AssessmentResult where
  user_id : String
  primary_level : FinancialLiteracyLevel
  category_scores : FinancialCategory → Nat
  strengths : List FinancialCategory
  improvement_areas : List FinancialCategory
  recommended_topics : List String
  assessment_date : Int

/-- Embeds interface `QuizSession`, `src/dollarWize.ts` lines 92-102.
`category_performance` is a sparse, insertion-ordered record and becomes
an association list. -/
structure QuizSession where
  session_id : String
  user_level : FinancialLiteracyLevel
  questions : List QuizQuestion
  user_answers : List Int
  score : Nat
  total_questions : Nat
  time_taken : Nat
  category_performance : List (FinancialCategory × Nat)
  completed_at : Int
deriving DecidableEq, Repr

/-- Embeds interface `UserProgress`, `src/dollarWize.ts` lines 108-118.
`category_mastery` is a sparse record (values become rationals through the
`(current + score) / 2` average); `last_activity` is an `Option` so that
the falsy check `if (!lastActivity)` in `calculateLearningStreak`
(line 957) is representable. -/
structure UserProgress where
  user_id : String
  current_level : FinancialLiteracyLevel
  total_quizzes_completed : Nat
  total_questions_answered : Nat
  overall_accuracy : ℚ
  category_mastery : List (FinancialCategory × ℚ)
  learning_streak : Nat
  achievements : List String
  last_activity : Option Int
deriving DecidableEq, Repr

/-- Embeds the `questions` array of `FinancialQuestionBank`,
`src/dollarWize.ts` lines 130-489, in source order. -/
def questions : List QuizQuestion := [
  { id := "nov_001",
    question := "What is the main benefit of a Roth IRA?",
    options := [
      "You get a tax deduction for contributions",
      "Qualified withdrawals in retirement are tax-free",
      "It has no contribution limits",
      "It can only be used for a home down payment"],
    correct := 1,
    level := novice,
    category := retirement,
    explanation := "A Roth IRA allows for tax-free growth and tax-free withdrawals in retirement, as long as you've had the account for at least five years and are over 59½. Contributions are made with after-tax dollars.",
    difficulty_weight := 2,
    us_specific := true },
  { id := "nov_002",
    question := "What does compound interest mean?",
    options := [
      "Interest paid only on the original amount invested",
      "Interest paid on both the original amount and previously earned interest",
      "Interest that changes daily",
      "Interest that is guaranteed by the government"],
    correct := 1,
    level := novice,
    category := savings,
    explanation := "Compound interest is when you earn interest on both your original investment and the interest you've already earned. This creates exponential growth over time.",
    difficulty_weight := 2,
    us_specific := false },
  { id := "nov_003",
    question := "How much should you ideally have in an emergency fund?",
    options := [
      "One month of expenses",
      "3-6 months of living expenses",
      "One year of income",
      "An amount equal to your car loan"],
    correct := 1,
    level := novice,
    category := savings,
    explanation := "An emergency fund should hold enough cash to cover 3 to 6 months of essential living expenses. This provides a safety net for unexpected job loss, medical emergencies, or other large expenses without relying on debt.",
    difficulty_weight := 2,
    us_specific := false },
  { id := "nov_004",
    question := "What is the most common range for a 'good' FICO credit score?",
    options := [
      "300-579",
      "580-669",
      "670-739",
      "740-850"],
    correct := 2,
    level := novice,
    category := credit,
    explanation := "In the United States, FICO credit scores range from 300-850. A score of 670-739 is considered good, while 740+ is very good to exceptional. Lenders often use these scores to determine loan eligibility and interest rates.",
    difficulty_weight := 3,
    us_specific := true },
  { id := "nov_005",
    question := "What is the purpose of a 401(k) retirement plan?",
    options := [
      "A tax-free account for a home down payment",
      "A government-funded pension plan",
      "An employer-sponsored retirement savings account",
      "A savings account for college tuition"],
    correct := 2,
    level := novice,
    category := retirement,
    explanation := "A 401(k) is a popular employer-sponsored retirement account in the US. It allows employees to contribute a portion of their salary, often with a matching contribution from the employer. Contributions are typically pre-tax, reducing your taxable income.",
    difficulty_weight := 3,
    us_specific := true },
  { id := "nov_006",
    question := "What is the difference between a checking and a savings account?",
    options := [
      "Checking accounts pay higher interest",
      "Savings accounts are for daily transactions, checking for long-term goals",
      "Checking accounts are for daily transactions, savings accounts are for long-term goals",
      "There is no difference"],
    correct := 2,
    level := novice,
    category := savings,
    explanation := "Checking accounts are designed for everyday transactions like paying bills and using a debit card, while savings accounts are intended to hold money you don't need immediately, often earning a small amount of interest.",
    difficulty_weight := 1,
    us_specific := false },
  { id := "nov_007",
    question := "What is net income?",
    options := [
      "Your total income before any deductions",
      "Your income after taxes and other deductions are taken out",
      "The money you earn from a side job",
      "Your income before your employer matches your 401(k) contribution"],
    correct := 1,
    level := novice,
    category := planning,
    explanation := "Net income, or 'take-home pay,' is the amount of money you have left after all payroll deductions, such as taxes, Social Security, and health insurance premiums, are removed from your gross income.",
    difficulty_weight := 2,
    us_specific := false },
  { id := "nov_008",
    question := "What is a mortgage?",
    options := [
      "A loan used to buy a car",
      "A loan for a house or real estate",
      "A line of credit on your home",
      "A type of credit card"],
    correct := 1,
    level := novice,
    category := real_estate,
    explanation := "A mortgage is a specific type of loan used to purchase a home or real estate. The property itself serves as collateral for the loan.",
    difficulty_weight := 1,
    us_specific := false },
  { id := "nov_009",
    question := "Why is having a budget important?",
    options := [
      "It guarantees you will save money",
      "It helps you track your spending and achieve financial goals",
      "It is only for people who have a lot of debt",
      "It allows you to spend as much as you want"],
    correct := 1,
    level := novice,
    category := budgeting,
    explanation := "Creating a budget is the first step toward gaining control of your finances. It helps you understand where your money is going and allows you to make a plan to save, invest, and reach your goals.",
    difficulty_weight := 1,
    us_specific := false },
  { id := "nov_010",
    question := "What is the primary role of a financial advisor?",
    options := [
      "To guarantee high investment returns",
      "To provide personalized financial guidance and planning",
      "To manage your bank account daily",
      "To sell specific financial products only"],
    correct := 1,
    level := novice,
    category := planning,
    explanation := "A financial advisor helps you set financial goals, create a plan, and make informed decisions about investments, retirement, and other financial matters.",
    difficulty_weight := 1,
    us_specific := false },
  { id := "int_001",
    question := "What is a 529 plan primarily used for?",
    options := [
      "Retirement savings",
      "Healthcare expenses",
      "Education savings",
      "Long-term care"],
    correct := 2,
    level := intermediate,
    category := education,
    explanation := "A 529 plan is a tax-advantaged savings plan in the US designed to encourage saving for future education costs. Contributions grow tax-deferred, and withdrawals are tax-free when used for qualified education expenses.",
    difficulty_weight := 3,
    us_specific := true },
  { id := "int_002",
    question := "What is the 'Rule of 72'?",
    options := [
      "A calculation for compound interest",
      "A way to estimate how long it takes an investment to double",
      "A formula for calculating your tax liability",
      "A formula for calculating your credit score"],
    correct := 1,
    level := intermediate,
    category := investing,
    explanation := "The Rule of 72 is a simple way to estimate how long it will take for your investment to double, given a fixed annual rate of return. You divide 72 by the annual rate of return.",
    difficulty_weight := 3,
    us_specific := false },
  { id := "int_003",
    question := "What is dollar-cost averaging?",
    options := [
      "Selling investments when the price is high",
      "Investing a fixed amount of money at regular intervals",
      "Investing all your money at once",
      "A strategy to always buy low and sell high"],
    correct := 1,
    level := intermediate,
    category := investing,
    explanation := "Dollar-cost averaging involves investing a fixed dollar amount on a regular basis, regardless of the share price. This strategy can reduce risk by smoothing out market volatility, preventing you from putting all your money into an investment at a market peak.",
    difficulty_weight := 3,
    us_specific := false },
  { id := "int_004",
    question := "Which of the following is a common deductible for a US tax return?",
    options := [
      "Rent payments",
      "Standard deduction or itemized deductions for mortgage interest",
      "Groceries",
      "Car payments"],
    correct := 1,
    level := intermediate,
    category := taxation,
    explanation := "In the US, taxpayers can choose between the standard deduction or itemized deductions, such as state and local taxes, charitable contributions, and mortgage interest. Most people take the standard deduction.",
    difficulty_weight := 4,
    us_specific := true },
  { id := "int_005",
    question := "What is the difference between a bull market and a bear market?",
    options := [
      "A bull market is a period of falling stock prices; a bear market is a period of rising stock prices",
      "A bull market is a period of rising stock prices; a bear market is a period of falling stock prices",
      "They are the same thing",
      "A bull market refers to the bond market, a bear market refers to the stock market"],
    correct := 1,
    level := intermediate,
    category := investing,
    explanation := "A bull market is a prolonged period where stock prices are rising or expected to rise, while a bear market is a period where prices are falling or expected to fall, often due to a recession or economic slowdown.",
    difficulty_weight := 3,
    us_specific := false },
  { id := "int_006",
    question := "What is a Health Savings Account (HSA)?",
    options := [
      "A retirement account for healthcare professionals",
      "A savings account for gym memberships",
      "A tax-advantaged savings account for healthcare expenses",
      "A government-funded health insurance plan"],
    correct := 2,
    level := intermediate,
    category := savings,
    explanation := "An HSA is a tax-advantaged savings account used in conjunction with a high-deductible health insurance plan. Contributions are tax-deductible, funds grow tax-free, and withdrawals for qualified medical expenses are also tax-free.",
    difficulty_weight := 4,
    us_specific := true },
  { id := "adv_001",
    question := "What is a 'Sharpe Ratio'?",
    options := [
      "A measure of an investment's dividend yield",
      "A measure of risk-adjusted return",
      "A measure of a company's price-to-earnings ratio",
      "A measure of a bond's duration"],
    correct := 1,
    level := advanced,
    category := investing,
    explanation := "The Sharpe Ratio measures an investment's performance by adjusting for its risk. It indicates the amount of excess return an investor receives for the volatility of holding that asset. Higher ratios are better.",
    difficulty_weight := 5,
    us_specific := false },
  { id := "adv_002",
    question := "What is 'tax loss harvesting'?",
    options := [
      "Avoiding all capital gains",
      "Selling losing investments to offset capital gains for tax purposes",
      "Only investing in tax-free accounts",
      "Delaying all investment sales"],
    correct := 1,
    level := advanced,
    category := taxation,
    explanation := "Tax loss harvesting involves selling investments at a loss to offset capital gains, reducing your overall tax liability. It's a strategy used at the end of the year to improve after-tax returns. In the US, you can also deduct a limited amount of losses against ordinary income.",
    difficulty_weight := 5,
    us_specific := true },
  { id := "adv_003",
    question := "What is the main difference between a traditional IRA and a Roth IRA?",
    options := [
      "Traditional IRAs are for younger people, Roth IRAs are for older people",
      "Traditional IRA contributions are pre-tax, while Roth IRA contributions are after-tax",
      "Roth IRAs have a higher contribution limit",
      "Traditional IRAs are for retirement, Roth IRAs are for education"],
    correct := 1,
    level := advanced,
    category := retirement,
    explanation := "The key difference lies in the tax treatment. With a traditional IRA, contributions may be tax-deductible, and withdrawals in retirement are taxed. With a Roth IRA, contributions are not deductible, but qualified withdrawals in retirement are tax-free.",
    difficulty_weight := 4,
    us_specific := true },
  { id := "adv_004",
    question := "What is 'asset-backed security' (ABS)?",
    options := [
      "A security backed by physical gold",
      "A financial security backed by a pool of assets, often loans or receivables",
      "A security issued by a government",
      "A stock that pays high dividends"],
    correct := 1,
    level := advanced,
    category := investing,
    explanation := "An asset-backed security (ABS) is a financial security collateralized by a pool of assets—such as loans, leases, credit card receivables, or royalties. These are often used to convert non-tradable assets into tradable securities.",
    difficulty_weight := 5,
    us_specific := false },
  { id := "adv_005",
    question := "What is a 'Systematic Withdrawal Plan'?",
    options := [
      "A plan to withdraw a fixed amount of money from an investment account on a regular schedule",
      "A plan for withdrawing from a bank account at an ATM",
      "A plan for getting rid of debt",
      "A plan for making regular contributions to a retirement account"],
    correct := 0,
    level := advanced,
    category := retirement,
    explanation := "A systematic withdrawal plan involves taking regular withdrawals from retirement accounts while keeping remaining funds invested. This strategy helps manage income needs during retirement while balancing growth potential.",
    difficulty_weight := 4,
    us_specific := false },
  { id := "adv_006",
    question := "What is 'basis' in tax law?",
    options := [
      "The amount of tax you owe at the end of the year",
      "The original cost of an asset for tax purposes",
      "The amount of money you have in a savings account",
      "The amount you have contributed to a retirement account"],
    correct := 1,
    level := advanced,
    category := taxation,
    explanation := "Basis, or 'cost basis,' is the original value of an asset for tax purposes. It is used to calculate the gain or loss when the asset is sold. For example, if you buy a stock for $100 and sell it for $150, your basis is $100, and your capital gain is $50.",
    difficulty_weight := 5,
    us_specific := true }]

/-- Embeds the `glossaryTerms` array of `FinancialQuestionBank`,
`src/dollarWize.ts` lines 491-618, in source order. `related_terms := none`
marks the six literals that omit the (interface-required) `related_terms`
property. -/
def glossaryTerms : List GlossaryTerm := [
  { id := "ira_roth",
    term := "Roth IRA",
    definition := "An individual retirement account (IRA) where contributions are made with after-tax dollars, and qualified withdrawals in retirement are tax-free. It's ideal for those who expect to be in a higher tax bracket later in life.",
    level := novice,
    category := retirement,
    related_terms := some ["traditional_ira", "401k"],
    us_context := some "Roth IRAs are a popular way to save for retirement in the US, offering a different tax advantage than Traditional IRAs.",
    examples := some ["Retirement savings", "Tax-free growth", "Long-term wealth building"] },
  { id := "fico_score",
    term := "FICO Score",
    definition := "A type of credit score used by lenders to assess a person's creditworthiness. The score ranges from 300 to 850, with higher scores indicating lower credit risk. It is a key factor in determining loan and credit card approval, as well as interest rates.",
    level := novice,
    category := credit,
    related_terms := some ["credit_report", "interest_rate"],
    us_context := some "FICO is the most widely used credit scoring model in the US. A good FICO score (670-739) can lead to better financial opportunities.",
    examples := some ["Mortgage application", "Car loan interest rate", "Credit card approval"] },
  { id := "401k",
    term := "401(k) Plan",
    definition := "An employer-sponsored retirement savings plan. Employees can contribute a portion of their pre-tax or after-tax (Roth 401k) salary, and many employers offer a matching contribution.",
    level := novice,
    category := retirement,
    related_terms := some ["ira", "roth_ira", "vesting"],
    us_context := some "The 401(k) is the most common workplace retirement plan in the US and is a cornerstone of American retirement savings.",
    examples := some ["Retirement savings", "Tax reduction strategy", "Employer match"] },
  { id := "cd",
    term := "CD (Certificate of Deposit)",
    definition := "A savings certificate entitling the bearer to a fixed interest rate on a fixed sum of money for a predetermined period of time. It's a low-risk, low-return investment often insured by the FDIC.",
    level := novice,
    category := savings,
    related_terms := some ["savings_account", "fixed_income"],
    us_context := some "CDs are a common way for US consumers to earn a higher interest rate than a traditional savings account without taking on investment risk.",
    examples := some ["Savings for a future goal", "Emergency fund overflow", "Short-term investment"] },
  { id := "inflation",
    term := "Inflation",
    definition := "The rate at which the general level of prices for goods and services rises, reducing purchasing power over time. Currently tracked by the Bureau of Labor Statistics (BLS), understanding inflation helps you make better long-term financial decisions.",
    level := novice,
    category := economics,
    related_terms := none,
    us_context := none,
    examples := none },
  { id := "mortgage",
    term := "Mortgage",
    definition := "A type of loan used to finance the purchase of real estate. The property itself serves as collateral for the loan.",
    level := novice,
    category := real_estate,
    related_terms := none,
    us_context := none,
    examples := none },
  { id := "529_plan",
    term := "529 Plan",
    definition := "A tax-advantaged savings plan designed to encourage saving for future education costs. Contributions grow tax-deferred, and withdrawals are tax-free when used for qualified education expenses.",
    level := intermediate,
    category := education,
    related_terms := some ["ira", "401k"],
    us_context := some "A 529 plan is the most popular way for Americans to save for college and other educational expenses, offering state and federal tax benefits.",
    examples := some ["College savings", "Private school tuition", "Tax-advantaged saving"] },
  { id := "hsa",
    term := "HSA (Health Savings Account)",
    definition := "A tax-advantaged savings account that can be used for healthcare expenses. It is available to those with a high-deductible health plan. Contributions are tax-deductible, funds grow tax-free, and withdrawals for qualified medical expenses are also tax-free.",
    level := intermediate,
    category := savings,
    related_terms := some ["fsa", "ira"],
    us_context := some "An HSA is often considered a 'triple-tax-advantaged' account and can be a powerful retirement savings tool if healthcare costs are anticipated.",
    examples := some ["Medical emergency fund", "Healthcare savings", "Retirement savings"] },
  { id := "etf",
    term := "ETF (Exchange-Traded Fund)",
    definition := "A type of investment fund that trades on stock exchanges like individual stocks. ETFs typically track an index, commodity, bonds, or basket of assets and often have lower fees than mutual funds.",
    level := intermediate,
    category := investing,
    related_terms := none,
    us_context := none,
    examples := none },
  { id := "mutual_fund",
    term := "Mutual Fund",
    definition := "A type of investment vehicle made up of a pool of funds collected from many investors to invest in securities like stocks, bonds, or other securities. Professional fund managers make investment decisions on behalf of shareholders.",
    level := intermediate,
    category := investing,
    related_terms := none,
    us_context := none,
    examples := none },
  { id := "compound_interest",
    term := "Compound Interest",
    definition := "Interest calculated on both the principal amount and previously earned interest. This creates exponential growth over time, making it one of the most powerful wealth-building concepts for long-term financial success.",
    level := novice,
    category := savings,
    related_terms := some ["simple_interest", "principal", "time_value_money"],
    us_context := none,
    examples := some ["Savings account growth", "Investment returns", "Debt accumulation"] },
  { id := "tax_loss_harvesting",
    term := "Tax Loss Harvesting",
    definition := "An investment strategy that involves selling investments at a loss to offset capital gains, thereby reducing overall tax liability. The strategy can be used to offset up to $3,000 of ordinary income per year in the US.",
    level := advanced,
    category := taxation,
    related_terms := some ["capital_gains", "wash_sale_rule"],
    us_context := some "This is a popular strategy for high-net-worth individuals to minimize their tax burden on investments, but it must be done carefully to avoid the 'wash sale rule'.",
    examples := some ["Offsetting capital gains", "Reducing annual tax bill"] },
  { id := "sharpe_ratio",
    term := "Sharpe Ratio",
    definition := "A measure of risk-adjusted return that calculates the excess return per unit of risk. Higher Sharpe ratios indicate better risk-adjusted performance, useful for comparing investment strategies or fund managers.",
    level := advanced,
    category := investing,
    related_terms := none,
    us_context := none,
    examples := none },
  { id := "reit",
    term := "REIT (Real Estate Investment Trust)",
    definition := "A company that owns, operates, or finances income-generating real estate. REITs allow investors to earn income from real estate without the need to buy or manage properties directly.",
    level := advanced,
    category := real_estate,
    related_terms := none,
    us_context := none,
    examples := none }]

/-- The `terms` field of `FinancialQuestionBank`: the constructor
(`src/dollarWize.ts` lines 620-622) assigns `this.terms = this.glossaryTerms`,
so `terms` is the same list. -/
def terms : List GlossaryTerm := glossaryTerms

/-- Embeds the `assessmentQuestions` array of `AssessmentEngine`,
`src/dollarWize.ts` lines 657-738, in source order. -/
def assessmentQuestions : List QuizQuestion := [
  { id := "assess_001",
    question := "What is the purpose of a 401(k) plan and why is it beneficial?",
    options := [
      "It's a tax-free savings account for a home down payment.",
      "It's an employer-sponsored retirement account with potential tax benefits.",
      "It's a government pension plan for all citizens.",
      "It's a savings account for college tuition."],
    correct := 1,
    level := novice,
    category := retirement,
    explanation := "A 401(k) is an employer-sponsored retirement savings plan in the U.S. that allows for pre-tax contributions, reducing your current taxable income.",
    difficulty_weight := 3,
    us_specific := true },
  { id := "assess_002",
    question := "What is the main factor that determines your FICO credit score?",
    options := [
      "Your age",
      "Your income",
      "Your payment history and credit utilization",
      "The number of bank accounts you have"],
    correct := 2,
    level := novice,
    category := credit,
    explanation := "Payment history (paying on time) and credit utilization (the amount of credit you're using compared to your limit) are the most significant factors in calculating a FICO credit score. Missing payments and high balances can significantly lower your score.",
    difficulty_weight := 3,
    us_specific := true },
  { id := "assess_003",
    question := "What is the primary difference between a stock and a bond?",
    options := [
      "A stock represents ownership in a company, while a bond represents a loan to a company or government.",
      "A stock is a loan, a bond is ownership.",
      "Stocks are only for advanced investors, bonds are for beginners.",
      "Stocks pay interest, bonds pay dividends."],
    correct := 0,
    level := intermediate,
    category := investing,
    explanation := "When you buy a stock, you become a part-owner (shareholder) of the company. When you buy a bond, you are lending money to the issuer (a company or government) in exchange for regular interest payments and the return of the principal at a future date.",
    difficulty_weight := 4,
    us_specific := false },
  { id := "assess_004",
    question := "What is the primary benefit of a 529 plan?",
    options := [
      "Tax-free withdrawals for qualified education expenses.",
      "You can withdraw money at any time for any reason without penalty.",
      "It's a guaranteed rate of return.",
      "It has no annual contribution limits."],
    correct := 0,
    level := intermediate,
    category := education,
    explanation := "The main benefit of a 529 plan is that the funds grow tax-deferred and are withdrawn completely tax-free as long as they are used for qualified education expenses, such as tuition, fees, and room and board.",
    difficulty_weight := 4,
    us_specific := true },
  { id := "assess_005",
    question := "What is the relationship between risk and return in investments?",
    options := [
      "Higher risk always guarantees higher returns",
      "There is no relationship between risk and return",
      "Generally, higher potential returns come with higher risk, but returns are never guaranteed",
      "Lower risk investments always perform better"],
    correct := 2,
    level := advanced,
    category := investing,
    explanation := "The risk-return relationship is fundamental to investment decision-making. Investors who are willing to take on more risk demand a higher potential return, as compensation for the possibility of losing their principal.",
    difficulty_weight := 4,
    us_specific := false }]

/-- Embeds `FinancialQuestionBank.getRelatedTerms`, `src/dollarWize.ts`
lines 641-645. A missing term yields `some []` (the source returns `[]`).
When the found term's literal omits `related_terms`, the source evaluates
`undefined.includes(...)` inside the filter and throws a `TypeError`; that
thrown exception is modelled as `none`. -/
def getRelatedTerms (termId : String) : Option (List GlossaryTerm) :=
  match terms.find? (fun t => t.id = termId) with
  | none => some []
  | some term =>
    match term.related_terms with
    | none => none
    | some rels => some (terms.filter (fun t => rels.contains t.id))

/-- Modelled from the spec: `FinancialQuestionBank.getQuestions` is called
by `QuizEngine.generateQuiz` (`src/dollarWize.ts` line 840) but no such
method is defined anywhere in the repository. Spec §4.1 specifies
`questionsForLevel(level)` as "all questions tagged with exactly `level`
(no level inheritance/cascading)", which this definition follows. -/
def getQuestions (level : FinancialLiteracyLevel) : List QuizQuestion :=
  questions.filter (fun q => q.level = level)

/-- One in-place swap `[array[i], array[j]] = [array[j], array[i]]` on the
list model of a JS array. The source only ever swaps in-bounds indices;
out-of-bounds reads fall through to the unchanged list. -/
def listSwap {α : Type} (l : List α) (i j : Nat) : List α :=
  match l[i]?, l[j]? with
  | some a, some b => (l.set i b).set j a
  | _, _ => l

/-- The Fisher–Yates loop of `QuizEngine.shuffleArray` (`src/dollarWize.ts`
lines 880-886), counting the loop variable `i` down to 1. The random draw
`Math.floor(Math.random() * (i + 1))` is modelled by `r i % (i + 1)` for an
arbitrary oracle `r`, which ranges over exactly the same values `0 … i`. -/
def fisherYatesAux {α : Type} (r : Nat → Nat) : Nat → List α → List α
  | 0, arr => arr
  | i + 1, arr => fisherYatesAux r i (listSwap arr (i + 1) (r (i + 1) % (i + 2)))

/-- Embeds `QuizEngine.shuffleArray`, `src/dollarWize.ts` lines 880-886:
the loop starts at `array.length - 1` and runs while `i > 0`. -/
def shuffleArray {α : Type} (r : Nat → Nat) (array : List α) : List α :=
  fisherYatesAux r (array.length - 1) array

/-- The `availableQuestions` pool of `QuizEngine.generateQuiz`
(`src/dollarWize.ts` lines 840-845): the level's questions, filtered by
`focusCategories` exactly when that optional argument is present and
non-empty. -/
def availableQuestionsFor (userLevel : FinancialLiteracyLevel)
    (focusCategories : Option (List FinancialCategory)) : List QuizQuestion :=
  let availableQuestions := getQuestions userLevel
  match focusCategories with
  | some fc =>
    if fc.length > 0 then
      availableQuestions.filter (fun q => fc.contains q.category)
    else availableQuestions
  | none => availableQuestions

/-- Embeds `QuizEngine.generateQuiz`, `src/dollarWize.ts` lines 835-855.
The `console.warn` in the undersized branch is a log line with no effect on
the result. -/
def generateQuiz (r : Nat → Nat) (userLevel : FinancialLiteracyLevel)
    (questionCount : Nat) (focusCategories : Option (List FinancialCategory)) :
    List QuizQuestion :=
  let availableQuestions := availableQuestionsFor userLevel focusCategories
  if availableQuestions.length < questionCount then
    shuffleArray r availableQuestions
  else
    (shuffleArray r availableQuestions).take questionCount

/-- JS property update `m[c] = (m[c] || 0) + 1` on a sparse record modelled
as an insertion-ordered association list: an existing key keeps its
position, a new key is appended. -/
def bumpCategory : List (FinancialCategory × Nat) → FinancialCategory →
    List (FinancialCategory × Nat)
  | [], c => [(c, 1)]
  | (a, n) :: t, c =>
    if a = c then (a, n + 1) :: t else (a, n) :: bumpCategory t c

/-- The `forEach` accumulation inside `QuizEngine.scoreQuiz`
(`src/dollarWize.ts` lines 864-869), walking the questions with their index
`i`: a correct answer increments `correctAnswers` and bumps the question's
category in `categoryPerformance`. -/
def scoreFold (ans : List Int) (i : Nat) :
    List QuizQuestion → Nat × List (FinancialCategory × Nat) →
    Nat × List (FinancialCategory × Nat)
  | [], acc => acc
  | q :: rest, acc =>
    scoreFold ans (i + 1) rest
      (if ans[i]? = some q.correct then (acc.1 + 1, bumpCategory acc.2 q.category)
       else acc)

/-- Embeds `QuizEngine.scoreQuiz`, `src/dollarWize.ts` lines 860-875:
recomputes `score` and `category_performance` from `questions` and
`user_answers` and stamps `completed_at` with the current time. -/
def scoreQuiz (now : Int) (session : QuizSession) : QuizSession :=
  let acc := scoreFold session.user_answers 0 session.questions (0, [])
  { session with
    score := acc.1
    category_performance := acc.2
    completed_at := now }

/-- The `questionWeights` record of `AssessmentEngine.assessUser`,
`src/dollarWize.ts` line 758. -/
def levelWeight : FinancialLiteracyLevel → Nat
  | novice => 1
  | intermediate => 2
  | advanced => 3

/-- The `forEach` accumulation of `AssessmentEngine.assessUser`
(`src/dollarWize.ts` lines 760-765): a correct answer at index `i` adds the
question's level weight to the per-level accumulator and its
`difficulty_weight` to the per-category accumulator. Both accumulators are
dense records (`scores` has all three level keys, `categoryScores` all 12
category keys, zero-initialized), modelled as functions. -/
def assessFold (answers : List Int) (i : Nat) :
    List QuizQuestion →
    (FinancialLiteracyLevel → Nat) × (FinancialCategory → Nat) →
    (FinancialLiteracyLevel → Nat) × (FinancialCategory → Nat)
  | [], acc => acc
  | q :: rest, acc =>
    assessFold answers (i + 1) rest
      (if answers[i]? = some q.correct then
        (fun lvl => if lvl = q.level then acc.1 lvl + levelWeight q.level else acc.1 lvl,
         fun c => if c = q.category then acc.2 c + q.difficulty_weight else acc.2 c)
       else acc)

/-- The two accumulators of `assessUser` after the `forEach` over the five
pretest questions, starting from all zeroes. -/
def assessScores (answers : List Int) :
    (FinancialLiteracyLevel → Nat) × (FinancialCategory → Nat) :=
  assessFold answers 0 assessmentQuestions (fun _ => 0, fun _ => 0)

/-- The per-level accumulator `scores` of `assessUser` read at one level. -/
def levelScore (answers : List Int) (lvl : FinancialLiteracyLevel) : Nat :=
  (assessScores answers).1 lvl

/-- The per-category accumulator `categoryScores` of `assessUser` read at
one category. -/
def categoryScore (answers : List Int) (c : FinancialCategory) : Nat :=
  (assessScores answers).2 c

/-- Embeds `AssessmentEngine.generateRecommendations`, `src/dollarWize.ts`
lines 801-814: an improvement-areas summary is pushed only when the list is
non-empty, followed by one fixed message chosen by the level. -/
def assessRecommendations (level : FinancialLiteracyLevel)
    (improvementAreas : List FinancialCategory) : List String :=
  (if improvementAreas.length > 0 then
    ["Based on your assessment, focus on these areas: " ++
      String.intercalate ", " (improvementAreas.map categoryName) ++
      ". Try our targeted quizzes and glossary sections for these topics."]
   else []) ++
  [match level with
   | novice =>
     "Start with our 'Foundations of Finance' quiz and read the glossary terms in the Novice section."
   | intermediate =>
     "Challenge yourself with our Intermediate quizzes and explore concepts like investment diversification and tax strategies."
   | advanced =>
     "You're ready for our Advanced quizzes. Dive into complex topics like options, real estate investment trusts, and advanced tax planning."]

/-- Embeds `AssessmentEngine.assessUser`, `src/dollarWize.ts` lines 742-796.
The primary level starts at `novice` with `maxScore = scores.novice`; the
intermediate score replaces it on strict `>`, then the advanced score is
compared (strict `>`) against the updated maximum. `improvement_areas` and
`strengths` filter `Object.entries(categoryScores)`, whose iteration order
is the key order of the record literal, i.e. `allCategories`. -/
def assessUser (now : Int) (answers : List Int) : AssessmentResult :=
  let scores := (assessScores answers).1
  let categoryScores := (assessScores answers).2
  let afterIntermediate :=
    if scores intermediate > scores novice then (intermediate, scores intermediate)
    else (novice, scores novice)
  let primaryLevel :=
    if scores advanced > afterIntermediate.2 then advanced else afterIntermediate.1
  let improvementAreas := allCategories.filter (fun c => categoryScores c < 5)
  let strengths := allCategories.filter (fun c => categoryScores c ≥ 5)
  let recommendedTopics := assessRecommendations primaryLevel improvementAreas
  { user_id := "guest"
    primary_level := primaryLevel
    category_scores := categoryScores
    strengths := strengths
    improvement_areas := improvementAreas
    recommended_topics := recommendedTopics
    assessment_date := now }

/-- JS read `m[c] || 0` on the sparse `category_mastery` record. -/
def lookupMastery (m : List (FinancialCategory × ℚ)) (c : FinancialCategory) : ℚ :=
  match m.find? (fun p => p.1 = c) with
  | some p => p.2
  | none => 0

/-- JS property write `m[c] = v` on a sparse insertion-ordered record: an
existing key keeps its position, a new key is appended. -/
def assocSet (m : List (FinancialCategory × ℚ)) (c : FinancialCategory) (v : ℚ) :
    List (FinancialCategory × ℚ) :=
  match m with
  | [] => [(c, v)]
  | (a, x) :: t => if a = c then (a, v) :: t else (a, x) :: assocSet t c v

/-- Embeds `ProgressTracker.checkAchievements`, `src/dollarWize.ts` lines
941-951. `progress.achievements || []` is just `progress.achievements`
(a JS array, even an empty one, is truthy); the two pushes happen in source
order and the second membership test sees the first push. -/
def checkAchievements (progress : UserProgress) (quizSession : QuizSession) :
    List String :=
  let achievements := progress.achievements
  let achievements :=
    if quizSession.score = quizSession.total_questions ∧
        "Perfect Score" ∉ achievements then
      achievements ++ ["Perfect Score"]
    else achievements
  let achievements :=
    if progress.total_quizzes_completed ≥ 5 ∧ "Quiz Whiz" ∉ achievements then
      achievements ++ ["Quiz Whiz"]
    else achievements
  achievements

/-- Embeds `ProgressTracker.calculateLearningStreak`, `src/dollarWize.ts`
lines 956-962. `lastActivity = none` models the falsy check
`if (!lastActivity)`; `Math.floor` of the real quotient is `Int.fdiv` on
millisecond timestamps (1000 * 60 * 60 * 24 = 86400000). -/
def calculateLearningStreak (now : Int) (lastActivity : Option Int) : Nat :=
  match lastActivity with
  | none => 1
  | some t =>
    let daysDiff := (now - t).fdiv 86400000
    if daysDiff ≤ 1 then 1 else 0

/-- Embeds `ProgressTracker.updateProgress`, `src/dollarWize.ts` lines
909-936, as the value the call returns: the accuracy recombination, the
spread with the four scalar updates, the `Object.entries` loop over
`session.category_performance` averaging each touched mastery entry, the
achievements recomputation (on the already-incremented quiz counter), and
the streak computed from the ORIGINAL `progress.last_activity`. -/
def updateProgress (now : Int) (progress : UserProgress)
    (quizSession : QuizSession) : UserProgress :=
  let totalCorrect : ℚ :=
    progress.total_questions_answered * progress.overall_accuracy / 100 +
      quizSession.score
  let totalAnswered : Nat :=
    progress.total_questions_answered + quizSession.total_questions
  let accuracy : ℚ :=
    if totalAnswered > 0 then totalCorrect / totalAnswered * 100 else 0
  let updatedProgress : UserProgress :=
    { progress with
      total_quizzes_completed := progress.total_quizzes_completed + 1
      total_questions_answered := totalAnswered
      overall_accuracy := accuracy
      last_activity := some now }
  let updatedProgress : UserProgress :=
    { updatedProgress with
      category_mastery := quizSession.category_performance.foldl
        (fun m p => assocSet m p.1 ((lookupMastery m p.1 + (p.2 : ℚ)) / 2))
        updatedProgress.category_mastery }
  let updatedProgress : UserProgress :=
    { updatedProgress with
      achievements := checkAchievements updatedProgress quizSession }
  { updatedProgress with
    learning_streak := calculateLearningStreak now progress.last_activity }

/-- Embeds one call to `updateProgress` together with its effect on the
caller's argument. The source builds `updatedProgress` with a SHALLOW
spread `{...progress, ...}` (line 914), so its `category_mastery` and
`achievements` properties are the same heap objects as the caller's; the
in-place writes `updatedProgress.category_mastery[category] = newScore`
(line 926) and the `achievements.push(...)` calls inside
`checkAchievements` (lines 945, 948) therefore mutate the caller's record
too. The first component is the caller's object as it stands after the
call, the second the returned snapshot. -/
def updateProgressCall (now : Int) (progress : UserProgress)
    (quizSession : QuizSession) : UserProgress × UserProgress :=
  let result := updateProgress now progress quizSession
  ({ progress with
      category_mastery := result.category_mastery
      achievements := result.achievements },
   result)

/-- JS key lookup on the sparse `category_performance` record: `some`
exactly when the category is present as a key. -/
def lookupPerformance (m : List (FinancialCategory × Nat))
    (c : FinancialCategory) : Option Nat :=
  (m.find? (fun p => p.1 = c)).map (fun p => p.2)

/-- Stated from the spec's words (§4.3): the score is "the count of i where
`user_answers[i] == questions[i].correct_index`". -/
def specScore (qs : List QuizQuestion) (ans : List Int) : Nat :=
  qs.enum.countP (fun p => ans[p.1]? = some p.2.correct)

/-- Stated from the spec's words (§4.3): the count of correct answers,
restricted to the questions of one category. -/
def specCategoryCount (qs : List QuizQuestion) (ans : List Int)
    (c : FinancialCategory) : Nat :=
  qs.enum.countP (fun p => ans[p.1]? = some p.2.correct ∧ p.2.category = c)

/-- Stated from the spec's words (§4.4 step 1 and §4.2 of the claim list):
the recombined overall accuracy. -/
def specOverallAccuracy (progress : UserProgress) (session : QuizSession) : ℚ :=
  if 0 < progress.total_questions_answered + session.total_questions then
    (progress.total_questions_answered * progress.overall_accuracy / 100 +
        session.score) /
      ((progress.total_questions_answered + session.total_questions : Nat) : ℚ) *
      100
  else 0

/-- A fresh progress value: no quiz completed yet, everything zeroed. -/
def progressZero : UserProgress :=
  { user_id := "guest"
    current_level := novice
    total_quizzes_completed := 0
    total_questions_answered := 0
    overall_accuracy := 0
    category_mastery := []
    learning_streak := 0
    achievements := []
    last_activity := none }

/-- The scored session of the spec's accuracy scenario: 8 correct out of
10. -/
def sessionEightOfTen : QuizSession :=
  { session_id := "s1"
    user_level := novice
    questions := []
    user_answers := []
    score := 8
    total_questions := 10
    time_taken := 60
    category_performance := []
    completed_at := 0 }

/-- A scored session whose `category_performance` touches one category
(one correct savings answer out of two questions). -/
def sessionOneSavings : QuizSession :=
  { session_id := "s2"
    user_level := novice
    questions := []
    user_answers := []
    score := 1
    total_questions := 2
    time_taken := 30
    category_performance := [(savings, 1)]
    completed_at := 0 }

/-! Helper lemmas. -/

theorem listSwap_perm {α : Type} [DecidableEq α] (l : List α) (i j : Nat) :
    (listSwap l i j).Perm l := by
  rw [listSwap]
  cases hi : l[i]? with
  | none => exact List.Perm.refl l
  | some a =>
    cases hj : l[j]? with
    | none => exact List.Perm.refl l
    | some b =>
      obtain ⟨hil, ha⟩ := List.getElem?_eq_some_iff.mp hi
      obtain ⟨hjl, hb⟩ := List.getElem?_eq_some_iff.mp hj
      have hjl' : j < (l.set i b).length := by simpa using hjl
      have hbj : (l.set i b)[j] = b := by
        rw [List.getElem_set]
        split
        · rfl
        · exact hb
      have hmem : a ∈ l := ha ▸ List.getElem_mem hil
      have hcnt : 0 < List.count a l := List.count_pos_iff.mpr hmem
      rw [List.perm_iff_count]
      intro x
      rw [List.count_set a x (l.set i b) j hjl', List.count_set b x l i hil,
        hbj, ha]
      simp only [beq_iff_eq]
      rcases eq_or_ne a x with hax | hax
      · subst hax
        rcases eq_or_ne b a with hbx | hbx <;> simp [hbx] <;> omega
      · rcases eq_or_ne b x with hbx | hbx <;> simp [hax, hbx]

theorem fisherYatesAux_perm {α : Type} [DecidableEq α] (r : Nat → Nat) :
    ∀ (n : Nat) (l : List α), (fisherYatesAux r n l).Perm l := by
  intro n
  induction n with
  | zero => intro l; exact List.Perm.refl l
  | succ i ih =>
    intro l
    exact (ih (listSwap l (i + 1) (r (i + 1) % (i + 2)))).trans
      (listSwap_perm l (i + 1) (r (i + 1) % (i + 2)))

theorem shuffleArray_perm {α : Type} [DecidableEq α] (r : Nat → Nat)
    (array : List α) : (shuffleArray r array).Perm array :=
  fisherYatesAux_perm r (array.length - 1) array

theorem questions_nodup : questions.Nodup :=
  List.Nodup.of_map (fun q => q.id) (by decide)

theorem mem_allCategories (c : FinancialCategory) : c ∈ allCategories := by
  cases c <;> simp [allCategories]

theorem assessUser_improvement_areas (now : Int) (answers : List Int) :
    (assessUser now answers).improvement_areas =
      allCategories.filter (fun c => categoryScore answers c < 5) := rfl

theorem assessUser_strengths (now : Int) (answers : List Int) :
    (assessUser now answers).strengths =
      allCategories.filter (fun c => categoryScore answers c ≥ 5) := rfl

theorem getQuestions_nodup (level : FinancialLiteracyLevel) :
    (getQuestions level).Nodup :=
  List.Nodup.filter _ questions_nodup

theorem availableQuestionsFor_subset (level : FinancialLiteracyLevel)
    (fc : Option (List FinancialCategory)) :
    availableQuestionsFor level fc ⊆ getQuestions level := by
  unfold availableQuestionsFor
  cases fc with
  | none => exact fun x h => h
  | some l =>
    dsimp only
    split
    · exact fun x hx => (List.mem_filter.mp hx).1
    · exact fun x h => h

theorem availableQuestionsFor_nodup (level : FinancialLiteracyLevel)
    (fc : Option (List FinancialCategory)) :
    (availableQuestionsFor level fc).Nodup := by
  unfold availableQuestionsFor
  cases fc with
  | none => exact getQuestions_nodup level
  | some l =>
    dsimp only
    split
    · exact List.Nodup.filter _ (getQuestions_nodup level)
    · exact getQuestions_nodup level

theorem lookupPerformance_bump_self (m : List (FinancialCategory × Nat))
    (c : FinancialCategory) :
    lookupPerformance (bumpCategory m c) c =
      some ((lookupPerformance m c).getD 0 + 1) := by
  induction m with
  | nil => simp [bumpCategory, lookupPerformance, List.find?]
  | cons p t ih =>
    obtain ⟨a, n⟩ := p
    by_cases hac : a = c
    · subst hac
      simp [bumpCategory, lookupPerformance, List.find?_cons]
    · simp only [bumpCategory, if_neg hac, lookupPerformance, List.find?_cons]
      simp only [lookupPerformance] at ih
      simpa [hac] using ih

theorem lookupPerformance_bump_other (m : List (FinancialCategory × Nat))
    (c c' : FinancialCategory) (h : c' ≠ c) :
    lookupPerformance (bumpCategory m c) c' = lookupPerformance m c' := by
  induction m with
  | nil => simp [bumpCategory, lookupPerformance, List.find?, Ne.symm h]
  | cons p t ih =>
    obtain ⟨a, n⟩ := p
    by_cases hac : a = c
    · subst hac
      simp [bumpCategory, lookupPerformance, List.find?_cons, Ne.symm h]
    · simp only [bumpCategory, if_neg hac, lookupPerformance, List.find?_cons]
      simp only [lookupPerformance] at ih
      by_cases hac' : a = c'
      · simp [hac']
      · simpa [hac'] using ih

theorem scoreFold_fst (ans : List Int) :
    ∀ (qs : List QuizQuestion) (i : Nat)
      (acc : Nat × List (FinancialCategory × Nat)),
      (scoreFold ans i qs acc).1 =
        acc.1 +
          (List.enumFrom i qs).countP (fun p => ans[p.1]? = some p.2.correct) := by
  intro qs
  induction qs with
  | nil => intro i acc; simp [scoreFold, List.enumFrom]
  | cons q rest ih =>
    intro i acc
    rw [scoreFold, List.enumFrom_cons]
    by_cases h : ans[i]? = some q.correct
    · rw [if_pos h, ih]
      simp [List.countP_cons, h]
      omega
    · rw [if_neg h, ih]
      simp [List.countP_cons, h]

theorem scoreFold_lookup_getD (ans : List Int) (c : FinancialCategory) :
    ∀ (qs : List QuizQuestion) (i : Nat)
      (acc : Nat × List (FinancialCategory × Nat)),
      (lookupPerformance (scoreFold ans i qs acc).2 c).getD 0 =
        (lookupPerformance acc.2 c).getD 0 +
          (List.enumFrom i qs).countP
            (fun p => ans[p.1]? = some p.2.correct ∧ p.2.category = c) := by
  intro qs
  induction qs with
  | nil => intro i acc; simp [scoreFold, List.enumFrom]
  | cons q rest ih =>
    intro i acc
    rw [scoreFold, List.enumFrom_cons]
    by_cases h : ans[i]? = some q.correct
    · rw [if_pos h]
      by_cases hqc : q.category = c
      · subst hqc
        rw [ih]
        rw [lookupPerformance_bump_self]
        simp [List.countP_cons, h]
        omega
      · rw [ih, lookupPerformance_bump_other _ _ _ (Ne.symm hqc)]
        simp [List.countP_cons, h, hqc]
    · rw [if_neg h, ih]
      simp [List.countP_cons, h]

theorem scoreFold_lookup_isSome (ans : List Int) (c : FinancialCategory) :
    ∀ (qs : List QuizQuestion) (i : Nat)
      (acc : Nat × List (FinancialCategory × Nat)),
      ((lookupPerformance (scoreFold ans i qs acc).2 c).isSome = true ↔
        ((lookupPerformance acc.2 c).isSome = true ∨
          0 < (List.enumFrom i qs).countP
            (fun p => ans[p.1]? = some p.2.correct ∧ p.2.category = c))) := by
  intro qs
  induction qs with
  | nil => intro i acc; simp [scoreFold, List.enumFrom]
  | cons q rest ih =>
    intro i acc
    rw [scoreFold, List.enumFrom_cons]
    by_cases h : ans[i]? = some q.correct
    · rw [if_pos h]
      by_cases hqc : q.category = c
      · subst hqc
        rw [ih]
        rw [lookupPerformance_bump_self]
        simp [List.countP_cons, h]
      · rw [ih, lookupPerformance_bump_other _ _ _ (Ne.symm hqc)]
        simp [List.countP_cons, h, hqc]
    · rw [if_neg h, ih]
      simp [List.countP_cons, h]

/-! Claim theorems. -/

/-- C1: for every level, the Content Store's `questionsForLevel` operation
(`getQuestions`, the method `QuizEngine.generateQuiz` invokes on the bank)
returns exactly the questions in the bank whose `level` field equals the
argument — only such questions, and all of them, with no level
inheritance. -/
theorem C1_getQuestions_exact_level (level : FinancialLiteracyLevel)
    (q : QuizQuestion) :
    q ∈ getQuestions level ↔ q ∈ questions ∧ q.level = level := by
  simp [getQuestions, List.mem_filter]

/-- C7: `getRelatedTerms` does not return an empty sequence for every term
with no related ids: at the stored terms "inflation" and "mortgage", whose
literals omit `related_terms`, the source evaluates
`undefined.includes(...)` and throws a `TypeError` (modelled `none`); only
for an id absent from the store does it return the empty sequence. -/
theorem C7_getRelatedTerms_inflation_throws :
    getRelatedTerms "inflation" = none ∧
    getRelatedTerms "mortgage" = none ∧
    getRelatedTerms "unknown_term_id" = some [] :=
  ⟨rfl, rfl, rfl⟩

/-- C10: `scoreQuiz` writes only `score`, `category_performance` and
`completed_at`: the returned session keeps the input's `session_id`,
`user_level`, `questions`, `user_answers`, `total_questions` and
`time_taken` unchanged. -/
theorem C10_scoreQuiz_frame (now : Int) (s : QuizSession) :
    (scoreQuiz now s).session_id = s.session_id ∧
    (scoreQuiz now s).user_level = s.user_level ∧
    (scoreQuiz now s).questions = s.questions ∧
    (scoreQuiz now s).user_answers = s.user_answers ∧
    (scoreQuiz now s).total_questions = s.total_questions ∧
    (scoreQuiz now s).time_taken = s.time_taken :=
  ⟨rfl, rfl, rfl, rfl, rfl, rfl⟩


/-- C2 counterexample: `updateProgress` does NOT leave the caller's
original progress value unchanged. With a fresh progress and a session
whose `category_performance` holds one savings entry, the caller's object
ends up with a mutated `category_mastery` (the savings mastery becomes
`(0 + 1) / 2`), so it differs from the value passed in. -/
theorem C2_updateProgress_mutates_caller :
    (updateProgressCall 0 progressZero sessionOneSavings).1 ≠ progressZero := by
  intro h
  have hm := congrArg UserProgress.category_mastery h
  simp [updateProgressCall, updateProgress, progressZero, sessionOneSavings,
    assocSet, lookupMastery] at hm

/-- C2 amended: `updateProgress` returns a new snapshot whose top-level
scalar fields leave the caller's original untouched, but because the source
copies `progress` with a shallow spread, the original's `category_mastery`
and `achievements` are the same objects as the result's and carry every
in-place update made during the call. -/
theorem C2_updateProgress_shallow_copy (now : Int) (p : UserProgress)
    (s : QuizSession) :
    ((updateProgressCall now p s).1.user_id = p.user_id ∧
     (updateProgressCall now p s).1.current_level = p.current_level ∧
     (updateProgressCall now p s).1.total_quizzes_completed =
       p.total_quizzes_completed ∧
     (updateProgressCall now p s).1.total_questions_answered =
       p.total_questions_answered ∧
     (updateProgressCall now p s).1.overall_accuracy = p.overall_accuracy ∧
     (updateProgressCall now p s).1.learning_streak = p.learning_streak ∧
     (updateProgressCall now p s).1.last_activity = p.last_activity) ∧
    (updateProgressCall now p s).1.category_mastery =
      (updateProgress now p s).category_mastery ∧
    (updateProgressCall now p s).1.achievements =
      (updateProgress now p s).achievements :=
  ⟨⟨rfl, rfl, rfl, rfl, rfl, rfl, rfl⟩, rfl, rfl⟩

/-- C3: `updateProgress` computes the new `overall_accuracy` by the spec's
recombination formula (zero when no question has ever been answered), and
on the spec's scenario — fresh progress, a session scoring 8 of 10 — it
yields accuracy 80, one completed quiz, and no "Perfect Score"
achievement. -/
theorem C3_overall_accuracy_formula :
    (∀ (now : Int) (p : UserProgress) (s : QuizSession),
      (updateProgress now p s).overall_accuracy = specOverallAccuracy p s) ∧
    (updateProgress 0 progressZero sessionEightOfTen).overall_accuracy = 80 ∧
    (updateProgress 0 progressZero sessionEightOfTen).total_quizzes_completed
      = 1 ∧
    "Perfect Score" ∉
      (updateProgress 0 progressZero sessionEightOfTen).achievements := by
  refine ⟨fun now p s => rfl, ?_, rfl, by decide⟩
  show (updateProgress 0 progressZero sessionEightOfTen).overall_accuracy = 80
  norm_num [updateProgress, progressZero, sessionEightOfTen]

/-- C4: `assessUser` picks `primary_level` by the exact source tie-break —
novice's accumulator starts as the maximum, intermediate replaces it only
on strict `>`, then advanced replaces the winner only on strict `>` against
the updated maximum — and on the all-correct pretest answers `[1,2,0,0,2]`
the accumulators are novice 2, intermediate 4, advanced 3, giving
`intermediate`. -/
theorem C4_primary_level_tiebreak :
    (∀ (now : Int) (answers : List Int),
      (assessUser now answers).primary_level =
        (let first :=
          if levelScore answers intermediate > levelScore answers novice then
            (intermediate, levelScore answers intermediate)
          else (novice, levelScore answers novice)
         if levelScore answers advanced > first.2 then advanced else first.1)) ∧
    levelScore [1, 2, 0, 0, 2] novice = 2 ∧
    levelScore [1, 2, 0, 0, 2] intermediate = 4 ∧
    levelScore [1, 2, 0, 0, 2] advanced = 3 ∧
    (assessUser 0 [1, 2, 0, 0, 2]).primary_level = intermediate := by
  refine ⟨fun now answers => rfl, by decide, by decide, by decide, by decide⟩

/-- C5: in every assessment result each of the 12 categories lands in
exactly one of `strengths` and `improvement_areas`: improvement areas are
exactly the categories scoring below 5 (zero-score ones included),
strengths exactly those scoring at least 5, and the two sets are disjoint
and jointly exhaustive over the category enum. -/
theorem C5_strengths_improvement_partition (now : Int) (answers : List Int)
    (c : FinancialCategory) :
    (c ∈ (assessUser now answers).improvement_areas ↔
      categoryScore answers c < 5) ∧
    (c ∈ (assessUser now answers).strengths ↔ 5 ≤ categoryScore answers c) ∧
    (c ∈ (assessUser now answers).strengths ↔
      c ∉ (assessUser now answers).improvement_areas) := by
  rw [assessUser_improvement_areas, assessUser_strengths]
  have hc := mem_allCategories c
  refine ⟨?_, ?_, ?_⟩
  · simp [List.mem_filter, hc]
  · simp [List.mem_filter, hc]
  · simp [List.mem_filter, hc]

/-- C6 counterexample: a category with accumulated score 0 does NOT appear
in neither set — with no correct answer, `savings` scores 0 and is listed
in `improvement_areas`, contradicting the claim at the input `[]`. -/
theorem C6_zero_score_not_excluded :
    categoryScore [] savings = 0 ∧
    savings ∈ (assessUser 0 []).improvement_areas := by
  exact ⟨by decide, by decide⟩

/-- C6 amended: `strengths` and `improvement_areas` partition all 12
categories, not only the nonzero-scoring ones: every category with
accumulated score 0 appears in `improvement_areas` (0 < 5) and not in
`strengths`. -/
theorem C6_zero_score_in_improvement_areas (now : Int) (answers : List Int)
    (c : FinancialCategory) (h : categoryScore answers c = 0) :
    c ∈ (assessUser now answers).improvement_areas ∧
    c ∉ (assessUser now answers).strengths := by
  rw [assessUser_improvement_areas, assessUser_strengths]
  have hc := mem_allCategories c
  constructor
  · simp [List.mem_filter, hc, h]
  · simp [List.mem_filter, hc, h]

/-- C6 amended, witnessed at a concrete input: with no answers, economics
scores 0, appears in `improvement_areas` and not in `strengths`. -/
theorem C6_zero_score_witness :
    categoryScore [] economics = 0 ∧
    economics ∈ (assessUser 0 []).improvement_areas ∧
    economics ∉ (assessUser 0 []).strengths :=
  ⟨by decide, C6_zero_score_in_improvement_areas 0 [] economics (by decide)⟩

/-- C8: `generateQuiz` returns exactly `count` questions when the
(category-filtered) pool for the level holds at least `count`, and
otherwise returns the entire pool (as a permutation, no error raised); in
both cases the result is a subset of the pool — hence of
`questionsForLevel` — and has no duplicates. The shuffle oracle `r` ranges
over every random sequence the source can draw. -/
theorem C8_generateQuiz_pool (r : Nat → Nat) (level : FinancialLiteracyLevel)
    (count : Nat) (fc : Option (List FinancialCategory)) :
    (count ≤ (availableQuestionsFor level fc).length →
      (generateQuiz r level count fc).length = count) ∧
    ((availableQuestionsFor level fc).length < count →
      (generateQuiz r level count fc).Perm (availableQuestionsFor level fc)) ∧
    generateQuiz r level count fc ⊆ availableQuestionsFor level fc ∧
    generateQuiz r level count fc ⊆ getQuestions level ∧
    (generateQuiz r level count fc).Nodup := by
  have hperm := shuffleArray_perm r (availableQuestionsFor level fc)
  have hnd : (shuffleArray r (availableQuestionsFor level fc)).Nodup :=
    hperm.symm.nodup (availableQuestionsFor_nodup level fc)
  have hsub : generateQuiz r level count fc ⊆ availableQuestionsFor level fc := by
    simp only [generateQuiz]
    split
    · exact hperm.subset
    · exact fun x hx => hperm.subset (List.take_subset _ _ hx)
  refine ⟨?_, ?_, hsub, fun x hx => availableQuestionsFor_subset level fc (hsub hx), ?_⟩
  · intro hcount
    simp only [generateQuiz]
    rw [if_neg (by omega)]
    rw [List.length_take, hperm.length_eq]
    exact Nat.min_eq_left hcount
  · intro hlt
    simp only [generateQuiz]
    rw [if_pos hlt]
    exact hperm
  · simp only [generateQuiz]
    split
    · exact hnd
    · exact (List.take_sublist _ _).nodup hnd

/-- C8 witnessed at concrete inputs: requesting 3 of the 10 novice
questions yields exactly 3; requesting 30 yields the whole pool. -/
theorem C8_generateQuiz_witness :
    (3 ≤ (availableQuestionsFor novice none).length ∧
      (generateQuiz (fun _ => 0) novice 3 none).length = 3) ∧
    ((availableQuestionsFor novice none).length < 30 ∧
      (generateQuiz (fun _ => 0) novice 30 none).Perm
        (availableQuestionsFor novice none)) :=
  ⟨⟨by decide, (C8_generateQuiz_pool (fun _ => 0) novice 3 none).1 (by decide)⟩,
   ⟨by decide, (C8_generateQuiz_pool (fun _ => 0) novice 30 none).2.1 (by decide)⟩⟩

/-- C9: `scoreQuiz` computes `score` as the count of indices whose answer
matches the question's correct index and `category_performance` as the
per-category count of correct answers, with exactly the categories having
at least one correct answer present as keys; both are pure functions of
`questions` and `user_answers`, so scoring an already-scored session again
reproduces them. -/
theorem C9_scoreQuiz_pure_counts (now now2 : Int) (s : QuizSession) :
    (scoreQuiz now s).score = specScore s.questions s.user_answers ∧
    (∀ c : FinancialCategory,
      lookupPerformance (scoreQuiz now s).category_performance c =
        if 0 < specCategoryCount s.questions s.user_answers c then
          some (specCategoryCount s.questions s.user_answers c)
        else none) ∧
    (scoreQuiz now2 (scoreQuiz now s)).score = (scoreQuiz now s).score ∧
    (scoreQuiz now2 (scoreQuiz now s)).category_performance =
      (scoreQuiz now s).category_performance := by
  refine ⟨?_, ?_, rfl, rfl⟩
  · have h := scoreFold_fst s.user_answers s.questions 0 (0, [])
    simpa [scoreQuiz, specScore] using h
  · intro c
    have hg := scoreFold_lookup_getD s.user_answers c s.questions 0 (0, [])
    have hs := scoreFold_lookup_isSome s.user_answers c s.questions 0 (0, [])
    have h0 : lookupPerformance (Prod.snd
        (0, ([] : List (FinancialCategory × Nat)))) c = none := rfl
    rw [h0] at hg hs
    simp only [Option.getD_none, Option.isSome_none, Bool.false_eq_true,
      false_or, Nat.zero_add] at hg hs
    have hq : (scoreQuiz now s).category_performance =
        (scoreFold s.user_answers 0 s.questions (0, [])).2 := rfl
    rw [hq]
    cases ho : lookupPerformance
        (scoreFold s.user_answers 0 s.questions (0, [])).2 c with
    | none =>
      rw [ho] at hs
      have hnot : ¬ 0 < specCategoryCount s.questions s.user_answers c := by
        intro hpos
        have h1 := hs.mpr (by simpa [specCategoryCount, List.enum] using hpos)
        simp at h1
      rw [if_neg hnot]
    | some k =>
      rw [ho] at hg hs
      have hpos : 0 < specCategoryCount s.questions s.user_answers c := by
        have h1 := hs.mp (by simp)
        simpa [specCategoryCount, List.enum] using h1
      rw [if_pos hpos]
      simp only [Option.getD_some] at hg
      rw [hg]
      simp [specCategoryCount, List.enum]

end DollarWize
